import Mathlib

/-!
Verification of the Smart EBS Volume Optimization pipeline.

The three AWS Lambda handlers are shallowly embedded as pure Lean functions.
External AWS collaborators (EC2 inventory, EC2 mutation, DynamoDB audit store,
SNS notification channel) are modelled as an explicit environment of
oracles/flags: a call that the service would reject corresponds to the oracle
returning `none`/`false`, which in Python raises an exception at the call site.
Side effects (mutation requests made, audit records written, notifications
published) are threaded explicitly so that theorems can talk about them.
-/

namespace EBS

/-- A tag on a fleet volume: key and value, as exposed by the inventory. -/
structure Tag where
  key : String
  value : String
deriving DecidableEq

/-- An attachment of a volume, naming the owning compute instance
(EC2 `Attachments` entry, field `InstanceId`). -/
structure Attachment where
  instanceId : String
deriving DecidableEq

/-- A volume as held by the fleet inventory (the fields of an EC2 volume
descriptor that the three handlers read). -/
structure Volume where
  volumeId : String
  availabilityZone : String
  volumeType : String
  size : Nat
  state : String
  tags : List Tag
  attachments : List Attachment
deriving DecidableEq

/-- One filter entry as passed to `describe_volumes` (`Name` / `Values`). -/
structure Filter where
  name : String
  values : List String
deriving DecidableEq

/-- Modelled from the spec: the fleet inventory query service
(`describeVolumes(filter) -> list<VolumeDescriptor>`, section 6) lives behind
the AWS API, not in the repository. A `tag:K` filter matches volumes carrying
tag `K` with a value among `Values`; a `volume-type` filter matches volumes
whose type is among `Values`. -/
def matchesFilter (v : Volume) (f : Filter) : Bool :=
  if f.name == "volume-type" then
    f.values.contains v.volumeType
  else if f.name.take 4 == "tag:" then
    v.tags.any (fun t => t.key == f.name.drop 4 && f.values.contains t.value)
  else
    false

/-- Modelled from the spec: `describe_volumes(Filters=...)` returns the
volumes matching every filter (filters are logically ANDed, section 4.1). -/
def describeVolumesFiltered (fleet : List Volume) (fs : List Filter) : List Volume :=
  fleet.filter (fun v => fs.all (matchesFilter v))

/-- The literal filter list passed by `1_FilterVolumesLambda`:
tag `AutoConvert` equal to `true`, and volume type `gp2`. -/
def autoConvertFilters : List Filter :=
  [{ name := "tag:AutoConvert", values := ["true"] },
   { name := "volume-type", values := ["gp2"] }]

/-- The record emitted by the Selector and consumed downstream:
`VolumeId` and `AvailabilityZone`. -/
structure VolumeRecord where
  volumeId : String
  availabilityZone : String
deriving DecidableEq

namespace FilterVolumes

/-- Shallow embedding of `src/lambdas/1_FilterVolumesLambda/lambda_function.py`
`lambda_handler`: query the inventory with the two filters and emit one
`VolumeRecord` per returned volume. The fleet inventory is passed explicitly. -/
def lambda_handler (fleet : List Volume) : List VolumeRecord :=
  let volumes := describeVolumesFiltered fleet autoConvertFilters
  volumes.map (fun v => { volumeId := v.volumeId, availabilityZone := v.availabilityZone })

end FilterVolumes

/-- The environment of the Converter: whether the EC2 mutation service accepts
`modify_volume(VolumeId=id, VolumeType='gp3')` for a given id. `false` means
the boto3 call raises at the call site. -/
structure ModifyEnv where
  modifyOk : String → Bool

/-- The dict returned by `2_ModifyVolumesLambda` on success. -/
structure ModifyResult where
  status : String
  volumes : List String
deriving DecidableEq

namespace ModifyVolumes

/-- The `for vol in event` loop of `2_ModifyVolumesLambda`: submit a
tier-change per record, in order, with no per-item exception handling.
Returns the ids whose mutation request was accepted before any failure,
and whether the loop ran to completion (`false` = an exception escaped,
aborting the loop). -/
def modifyLoop (env : ModifyEnv) : List VolumeRecord → List String × Bool
  | [] => ([], true)
  | v :: vs =>
    if env.modifyOk v.volumeId then
      let r := modifyLoop env vs
      (v.volumeId :: r.1, r.2)
    else
      ([], false)

/-- Shallow embedding of `src/lambdas/2_ModifyVolumesLambda/lambda_function.py`
`lambda_handler`. First component: the mutation requests actually performed.
Second component: the returned value, or the exception that propagated to the
caller (`Except.error`). On completion the code returns the fixed status
string and the ids of ALL input records. -/
def lambda_handler (env : ModifyEnv) (event : List VolumeRecord) :
    List String × Except String ModifyResult :=
  let r := modifyLoop env event
  (r.1,
   if r.2 then
     Except.ok { status := "submitted for conversion"
                 volumes := event.map (fun v => v.volumeId) }
   else
     Except.error "SubmissionError")

end ModifyVolumes

/-- The audit record (DynamoDB item) written by `3_VerifyAndNotifyLambda`. -/
structure AuditRecord where
  volumeID : String
  instanceId : String
  volumeType : String
  size : Nat
  region : String
  timestamp : String
  status : String
deriving DecidableEq

/-- The environment of the Verifier/Notifier:
`describeVolume id` is the result of `ec2.describe_volumes(VolumeIds=[id])`
(`none` = the query raises: volume not found or transient error);
`putOk r` is whether `table.put_item(Item=r)` succeeds (`false` = it raises);
`publishOk m` is whether `sns.publish(..., Message=m)` succeeds;
`time n` is `datetime.datetime.utcnow().isoformat()` at the n-th loop
iteration of the run. -/
structure VerifyEnv where
  describeVolume : String → Option Volume
  putOk : AuditRecord → Bool
  publishOk : String → Bool
  time : Nat → String

/-- Terminal state of one item of the Verifier/Notifier batch:
either the notification was published, or the item's exception was caught
and printed by the `except` branch. -/
inductive ItemOutcome where
  | notified
  | failed
deriving DecidableEq

/-- Modelled from the spec: the durable audit store collaborator
(`append(record)` keyed by a system-generated id, section 6). The DynamoDB
table `VolumeConversionLogs` and its key schema are not part of the
repository; per the spec, a write appends a new entry under a fresh
system-generated record id — here the current length of the store. -/
def appendAudit (store : List (Nat × AuditRecord)) (r : AuditRecord) :
    List (Nat × AuditRecord) :=
  store ++ [(store.length, r)]

namespace VerifyAndNotify

/-- The audit log dict built by `3_VerifyAndNotifyLambda` lines 21-29
from the described volume (`instance_id` is the first attachment's owner,
or `'Unknown'` when there are no attachments). -/
def mkLog (env : VerifyEnv) (idx : Nat) (volumeId : String) (v : Volume) : AuditRecord :=
  { volumeID := volumeId
    instanceId :=
      match v.attachments with
      | [] => "Unknown"
      | a :: _ => a.instanceId
    volumeType := v.volumeType
    size := v.size
    region := "ap-south-1"
    timestamp := env.time idx
    status := v.state }

/-- One iteration of the `for vol in event` loop, with its `try`/`except`:
describe the volume, build the log, `put_item`, `publish`. Any exception
(query failure, write failure, publish failure) is caught and the item ends
in `ItemOutcome.failed`, with exactly the side effects performed before the
exception kept. Returns the updated audit store, the updated notification
list, and the item's terminal outcome. -/
def processVol (env : VerifyEnv) (idx : Nat) (store : List (Nat × AuditRecord))
    (notifs : List String) (vol : VolumeRecord) :
    List (Nat × AuditRecord) × List String × ItemOutcome :=
  match env.describeVolume vol.volumeId with
  | none => (store, notifs, ItemOutcome.failed)
  | some v =>
    let log := mkLog env idx vol.volumeId v
    if env.putOk log then
      let store' := appendAudit store log
      let msg := "Volume ID: " ++ vol.volumeId ++ ", Status: " ++ v.state
      if env.publishOk msg then
        (store', notifs ++ [msg], ItemOutcome.notified)
      else
        (store', notifs, ItemOutcome.failed)
    else
      (store, notifs, ItemOutcome.failed)

/-- The whole loop over the (already coerced) item list, threading the loop
index, the audit store and the notification list, and collecting one terminal
outcome per item. -/
def processList (env : VerifyEnv) : Nat → List (Nat × AuditRecord) → List String →
    List VolumeRecord → List (Nat × AuditRecord) × List String × List ItemOutcome
  | _, store, notifs, [] => (store, notifs, [])
  | idx, store, notifs, vol :: rest =>
    let r := processVol env idx store notifs vol
    let rr := processList env (idx + 1) r.1 r.2.1 rest
    (rr.1, rr.2.1, r.2.2 :: rr.2.2)

/-- The input event of the Verifier/Notifier as received from the invoker:
a JSON string, a single dict, or a list of dicts. -/
inductive Event where
  | str : String → Event
  | dict : VolumeRecord → Event
  | list : List VolumeRecord → Event
deriving DecidableEq

/-- What a run of the Verifier/Notifier produces: the audit store after the
run, the notifications published during the run, the terminal outcome of each
item, and the returned status dict's `status` field. -/
structure VerifyOutput where
  store : List (Nat × AuditRecord)
  notifs : List String
  outcomes : List ItemOutcome
  result : String
deriving DecidableEq

/-- Shallow embedding of `src/lambdas/3_VerifyAndNotifyLambda/lambda_function.py`
`lambda_handler`. `loads` models `json.loads` (`none` = the parse raises, and
that exception is NOT inside the per-item `try`, so it propagates). A string
event is parsed; then a dict event is wrapped into a one-element list; then
the loop runs. If after parsing the event is still a string, Python iterates
its characters and every character fails inside the `try` (indexing a `str`
with `'VolumeId'` raises), so each character yields a caught failure with no
side effects. `store0` is the audit store content before the run. -/
def lambda_handler (env : VerifyEnv) (loads : String → Option Event)
    (event : Event) (store0 : List (Nat × AuditRecord)) :
    Except String VerifyOutput :=
  let parsed : Except String Event :=
    match event with
    | Event.str s =>
      match loads s with
      | none => Except.error "JSONDecodeError"
      | some e => Except.ok e
    | e => Except.ok e
  match parsed with
  | Except.error m => Except.error m
  | Except.ok (Event.dict r) =>
    let out := processList env 0 store0 [] [r]
    Except.ok { store := out.1, notifs := out.2.1, outcomes := out.2.2
                result := "logged and notified" }
  | Except.ok (Event.list items) =>
    let out := processList env 0 store0 [] items
    Except.ok { store := out.1, notifs := out.2.1, outcomes := out.2.2
                result := "logged and notified" }
  | Except.ok (Event.str s) =>
    Except.ok { store := store0, notifs := []
                outcomes := s.data.map (fun _ => ItemOutcome.failed)
                result := "logged and notified" }

/-- The terminal outcome of a single item, as a function of the environment
and the loop index alone. That this characterises the outcome of each item of
a batch (independent of every sibling item) is the isolation theorem below. -/
def itemOutcome (env : VerifyEnv) (idx : Nat) (vol : VolumeRecord) : ItemOutcome :=
  match env.describeVolume vol.volumeId with
  | none => ItemOutcome.failed
  | some v =>
    let log := mkLog env idx vol.volumeId v
    if env.putOk log then
      if env.publishOk ("Volume ID: " ++ vol.volumeId ++ ", Status: " ++ v.state) then
        ItemOutcome.notified
      else
        ItemOutcome.failed
    else
      ItemOutcome.failed

end VerifyAndNotify

/-! Concrete fixtures used by counterexamples and witnesses. -/

/-- Volume A of the spec's filter-exactness example: tag true, source type. -/
def volA : Volume :=
  { volumeId := "vol-A", availabilityZone := "az1", volumeType := "gp2"
    size := 8, state := "in-use"
    tags := [{ key := "AutoConvert", value := "true" }]
    attachments := [{ instanceId := "i-1" }] }

/-- Volume B of the spec's filter-exactness example: tag false, source type. -/
def volB : Volume :=
  { volA with volumeId := "vol-B", tags := [{ key := "AutoConvert", value := "false" }] }

/-- Volume C of the spec's filter-exactness example: tag true, target type. -/
def volC : Volume :=
  { volA with volumeId := "vol-C", volumeType := "gp3" }

/-- A mutation service that rejects `vol-X` and accepts everything else. -/
def envRejectX : ModifyEnv := ⟨fun id => !(id == "vol-X")⟩

/-- A mutation service that accepts `vol-X` and rejects everything else. -/
def envAcceptOnlyX : ModifyEnv := ⟨fun id => id == "vol-X"⟩

/-- A Verifier environment in which every external call succeeds and every
inventory query returns `volA`. -/
def envOkV : VerifyEnv :=
  { describeVolume := fun _ => some volA
    putOk := fun _ => true
    publishOk := fun _ => true
    time := fun _ => "t0" }

/-- C1: the claim says a failure while submitting one record's tier change
does not abort the remaining records and an aggregate is still returned. The
code has no per-item exception handling: with input `[vol-X, vol-Y]` where the
mutation of `vol-X` is rejected, no mutation request is ever made for `vol-Y`
and the call raises instead of returning an aggregate result. -/
theorem C1_submit_failure_aborts_remaining :
    (ModifyVolumes.lambda_handler envRejectX
        [{ volumeId := "vol-X", availabilityZone := "az1" },
         { volumeId := "vol-Y", availabilityZone := "az1" }]).1 = [] ∧
    (ModifyVolumes.lambda_handler envRejectX
        [{ volumeId := "vol-X", availabilityZone := "az1" },
         { volumeId := "vol-Y", availabilityZone := "az1" }]).2 =
      Except.error "SubmissionError" :=
  ⟨rfl, rfl⟩

/-- C2: the claim says that for input `[X, Y]` with X accepted and Y rejected
the result has status `partial` and lists X but not Y. The code instead: the
accepted mutation for X is performed, then Y's rejection raises, and the call
returns no aggregate at all; moreover on full success the status is the fixed
string `submitted for conversion` with ALL input ids, never `partial` or
`failed`. -/
theorem C2_no_partial_aggregate :
    (ModifyVolumes.lambda_handler envAcceptOnlyX
        [{ volumeId := "vol-X", availabilityZone := "az1" },
         { volumeId := "vol-Y", availabilityZone := "az1" }]).1 = ["vol-X"] ∧
    (ModifyVolumes.lambda_handler envAcceptOnlyX
        [{ volumeId := "vol-X", availabilityZone := "az1" },
         { volumeId := "vol-Y", availabilityZone := "az1" }]).2 =
      Except.error "SubmissionError" ∧
    (ModifyVolumes.lambda_handler envAcceptOnlyX
        [{ volumeId := "vol-X", availabilityZone := "az1" }]).2 =
      Except.ok { status := "submitted for conversion", volumes := ["vol-X"] } :=
  ⟨rfl, rfl, rfl⟩

/-- Boolean string equality is the decision procedure of propositional
equality (bridges `==` and `decide` forms produced by `simp`). -/
lemma strBeq_decide (a b : String) : (a == b) = decide (a = b) := by
  cases h : a == b
  · have hne : ¬ a = b := by simpa using h
    simp [hne]
  · have he : a = b := by simpa using h
    simp [he]

/-- Pointwise meaning of the Converter's literal filter list: a volume passes
both filters exactly when it carries tag `AutoConvert` with value `true` and
its volume type is `gp2`. -/
lemma matchesAuto (v : Volume) :
    autoConvertFilters.all (matchesFilter v) =
      (v.tags.any (fun t => t.key == "AutoConvert" && t.value == "true")
        && v.volumeType == "gp2") := by
  have h1 : ("tag:AutoConvert" == "volume-type") = false := by decide
  have h2 : ("tag:AutoConvert".take 4 == "tag:") = true := by decide
  have h3 : "tag:AutoConvert".drop 4 = "AutoConvert" := by decide
  simp [autoConvertFilters, matchesFilter, h1, h2, h3, List.contains_cons, strBeq_decide]

/-- C5: the Selector returns one record per volume with tag `AutoConvert` set
to `true` and volume type equal to the source tier `gp2`, and no others; on
the spec's example fleet `{A, B, C}` it returns exactly `{A}`. -/
theorem C5_filter_exactness :
    (∀ fleet : List Volume, FilterVolumes.lambda_handler fleet =
      (fleet.filter (fun v =>
          v.tags.any (fun t => t.key == "AutoConvert" && t.value == "true")
            && v.volumeType == "gp2")).map
        (fun v => { volumeId := v.volumeId, availabilityZone := v.availabilityZone })) ∧
    FilterVolumes.lambda_handler [volA, volB, volC] =
      [{ volumeId := "vol-A", availabilityZone := "az1" }] := by
  constructor
  · intro fleet
    unfold FilterVolumes.lambda_handler describeVolumesFiltered
    rw [List.filter_congr (fun v _ => matchesAuto v)]
  · decide

/-- C7: each stage is neutral on empty input: a fleet with no matching volume
gives an empty Selector output; an empty Converter batch performs no mutation
request and returns the success dict with an empty id list; an empty
Verifier/Notifier batch leaves the audit store untouched, publishes nothing,
and returns the fixed status dict without error. -/
theorem C7_empty_input_neutral :
    (∀ fleet : List Volume, (∀ v ∈ fleet, autoConvertFilters.all (matchesFilter v) = false) →
        FilterVolumes.lambda_handler fleet = []) ∧
    (∀ env, ModifyVolumes.lambda_handler env [] =
        ([], Except.ok { status := "submitted for conversion", volumes := [] })) ∧
    (∀ env loads store0,
        VerifyAndNotify.lambda_handler env loads (VerifyAndNotify.Event.list []) store0 =
          Except.ok { store := store0, notifs := [], outcomes := []
                      result := "logged and notified" }) := by
  refine ⟨?_, ?_, ?_⟩
  · intro fleet h
    have hnil : fleet.filter (fun v => autoConvertFilters.all (matchesFilter v)) = [] :=
      List.filter_eq_nil_iff.mpr (fun a ha => by simp [h a ha])
    simp [FilterVolumes.lambda_handler, describeVolumesFiltered, hnil]
  · intro env
    rfl
  · intro env loads store0
    rfl

/-- Witness for C7: the hypothesis of the Selector part holds for the
one-volume fleet `[volB]` (tag `AutoConvert` is `false` there), and the
Selector output is indeed empty. -/
theorem C7_witness : FilterVolumes.lambda_handler [volB] = [] :=
  C7_empty_input_neutral.1 [volB] (by decide)

/-- The terminal outcome of one loop iteration depends only on the
environment, the loop index and the item itself — not on the audit store or
the notifications accumulated by earlier items. -/
lemma processVol_outcome (env : VerifyEnv) (idx : Nat) (store : List (Nat × AuditRecord))
    (notifs : List String) (vol : VolumeRecord) :
    (VerifyAndNotify.processVol env idx store notifs vol).2.2 =
      VerifyAndNotify.itemOutcome env idx vol := by
  cases h : env.describeVolume vol.volumeId with
  | none => simp [VerifyAndNotify.processVol, VerifyAndNotify.itemOutcome, h]
  | some v =>
    by_cases hp : env.putOk (VerifyAndNotify.mkLog env idx vol.volumeId v) = true
    · by_cases hq :
        env.publishOk ("Volume ID: " ++ vol.volumeId ++ ", Status: " ++ v.state) = true
      · simp [VerifyAndNotify.processVol, VerifyAndNotify.itemOutcome, h, hp, hq]
      · simp [VerifyAndNotify.processVol, VerifyAndNotify.itemOutcome, h, hp, hq]
    · simp [VerifyAndNotify.processVol, VerifyAndNotify.itemOutcome, h, hp]

/-- One loop iteration appends zero or one entries to the audit store, and any
appended entry carries region `ap-south-1`. -/
lemma processVol_store (env : VerifyEnv) (idx : Nat) (store : List (Nat × AuditRecord))
    (notifs : List String) (vol : VolumeRecord) :
    ∃ d, (VerifyAndNotify.processVol env idx store notifs vol).1 = store ++ d ∧
      ∀ p ∈ d, (p : Nat × AuditRecord).2.region = "ap-south-1" := by
  cases h : env.describeVolume vol.volumeId with
  | none => exact ⟨[], by simp [VerifyAndNotify.processVol, h], by simp⟩
  | some v =>
    by_cases hp : env.putOk (VerifyAndNotify.mkLog env idx vol.volumeId v) = true
    · refine ⟨[(store.length, VerifyAndNotify.mkLog env idx vol.volumeId v)], ?_, ?_⟩
      · by_cases hq :
          env.publishOk ("Volume ID: " ++ vol.volumeId ++ ", Status: " ++ v.state) = true
        · simp [VerifyAndNotify.processVol, h, hp, hq, appendAudit]
        · simp [VerifyAndNotify.processVol, h, hp, hq, appendAudit]
      · intro p hpmem
        simp only [List.mem_singleton] at hpmem
        subst hpmem
        rfl
    · exact ⟨[], by simp [VerifyAndNotify.processVol, h, hp], by simp⟩

/-- The loop's outcome list is the per-item outcome of each item, enumerated
from the starting index: sibling items cannot influence each other. -/
lemma processList_outcomes (env : VerifyEnv) (items : List VolumeRecord) :
    ∀ idx store notifs,
      (VerifyAndNotify.processList env idx store notifs items).2.2 =
        (List.enumFrom idx items).map (fun p => VerifyAndNotify.itemOutcome env p.1 p.2) := by
  induction items with
  | nil => intro idx store notifs; rfl
  | cons a as ih =>
    intro idx store notifs
    simp [VerifyAndNotify.processList, List.enumFrom_cons, ih, processVol_outcome]

/-- The loop only ever appends to the audit store, and every appended entry
carries region `ap-south-1`. -/
lemma processList_store (env : VerifyEnv) (items : List VolumeRecord) :
    ∀ idx store notifs,
      ∃ d, (VerifyAndNotify.processList env idx store notifs items).1 = store ++ d ∧
        ∀ p ∈ d, (p : Nat × AuditRecord).2.region = "ap-south-1" := by
  induction items with
  | nil => intro idx store notifs; exact ⟨[], by simp [VerifyAndNotify.processList], by simp⟩
  | cons a as ih =>
    intro idx store notifs
    obtain ⟨d0, h0, r0⟩ := processVol_store env idx store notifs a
    obtain ⟨d1, h1, r1⟩ := ih (idx + 1) (VerifyAndNotify.processVol env idx store notifs a).1
      (VerifyAndNotify.processVol env idx store notifs a).2.1
    rw [h0] at h1
    refine ⟨d0 ++ d1, ?_, ?_⟩
    · simp [VerifyAndNotify.processList, h0, h1, List.append_assoc]
    · intro p hp
      rcases List.mem_append.mp hp with hm | hm
      · exact r0 p hm
      · exact r1 p hm

/-- C3: for every environment and every batch, the Verifier/Notifier returns
normally (it never raises because of an individual item failure, whatever the
per-item query/persist/publish failures are), and every item of the batch
reaches its own terminal outcome, determined by that item alone — sibling
failures cannot block it. -/
theorem C3_per_item_isolation :
    ∀ env loads (items : List VolumeRecord) store0,
      ∃ out, VerifyAndNotify.lambda_handler env loads
          (VerifyAndNotify.Event.list items) store0 = Except.ok out ∧
        out.outcomes = items.enum.map (fun p => VerifyAndNotify.itemOutcome env p.1 p.2) ∧
        out.outcomes.length = items.length := by
  intro env loads items store0
  refine ⟨_, rfl, ?_, ?_⟩
  · show (VerifyAndNotify.processList env 0 store0 [] items).2.2 = _
    rw [processList_outcomes env items 0 store0 []]
    simp [List.enum]
  · show ((VerifyAndNotify.processList env 0 store0 [] items).2.2).length = _
    rw [processList_outcomes env items 0 store0 []]
    simp

/-- C4: per item, a notification is published only after the item's audit
record was durably appended: whenever the notification list changed, the
inventory query had succeeded, the audit write had been accepted, and the
item's record sits appended in the store; and when the audit write fails, the
item ends failed with no store change and no notification at all. -/
theorem C4_persist_before_notify :
    ∀ env idx store notifs vol,
      ((VerifyAndNotify.processVol env idx store notifs vol).2.1 ≠ notifs →
        ∃ v, env.describeVolume vol.volumeId = some v ∧
          env.putOk (VerifyAndNotify.mkLog env idx vol.volumeId v) = true ∧
          (VerifyAndNotify.processVol env idx store notifs vol).1 =
            appendAudit store (VerifyAndNotify.mkLog env idx vol.volumeId v)) ∧
      (∀ v, env.describeVolume vol.volumeId = some v →
        env.putOk (VerifyAndNotify.mkLog env idx vol.volumeId v) = false →
        VerifyAndNotify.processVol env idx store notifs vol =
          (store, notifs, ItemOutcome.failed)) := by
  intro env idx store notifs vol
  constructor
  · intro hch
    cases h : env.describeVolume vol.volumeId with
    | none => exact absurd (by simp [VerifyAndNotify.processVol, h]) hch
    | some v =>
      by_cases hp : env.putOk (VerifyAndNotify.mkLog env idx vol.volumeId v) = true
      · refine ⟨v, rfl, hp, ?_⟩
        by_cases hq :
          env.publishOk ("Volume ID: " ++ vol.volumeId ++ ", Status: " ++ v.state) = true
        · simp [VerifyAndNotify.processVol, h, hp, hq]
        · simp [VerifyAndNotify.processVol, h, hp, hq]
      · exact absurd (by simp [VerifyAndNotify.processVol, h, hp]) hch
  · intro v h hp
    simp [VerifyAndNotify.processVol, h, hp]

/-- A Verifier environment whose inventory always answers `volA` but whose
audit store rejects every write. -/
def envPutFail : VerifyEnv :=
  { describeVolume := fun _ => some volA
    putOk := fun _ => false
    publishOk := fun _ => true
    time := fun _ => "t0" }

/-- Witness for C4: with an audit store that rejects the write, the item ends
failed with the store and the notification list untouched. -/
theorem C4_witness :
    VerifyAndNotify.processVol envPutFail 0 [] []
        { volumeId := "vol-A", availabilityZone := "az1" } =
      ([], [], ItemOutcome.failed) :=
  (C4_persist_before_notify envPutFail 0 [] []
    { volumeId := "vol-A", availabilityZone := "az1" }).2 volA rfl rfl

/-- C6: re-running the Verifier/Notifier on the same single volume, when the
inventory, the audit store and the notification channel all accept, raises no
error in either run, appends one audit record per run under distinct
system-generated record ids (0 then 1 — the second write does not collide
with or overwrite the first, which survives unchanged), and publishes one
notification per run. -/
theorem C6_rerun_idempotence :
    ∀ env loads vid az v,
      env.describeVolume vid = some v →
      (∀ r, env.putOk r = true) →
      (∀ m, env.publishOk m = true) →
      ∃ out1 out2,
        VerifyAndNotify.lambda_handler env loads
            (VerifyAndNotify.Event.list [{ volumeId := vid, availabilityZone := az }]) [] =
          Except.ok out1 ∧
        VerifyAndNotify.lambda_handler env loads
            (VerifyAndNotify.Event.list [{ volumeId := vid, availabilityZone := az }])
            out1.store =
          Except.ok out2 ∧
        out1.store = [(0, VerifyAndNotify.mkLog env 0 vid v)] ∧
        out2.store = [(0, VerifyAndNotify.mkLog env 0 vid v),
                      (1, VerifyAndNotify.mkLog env 0 vid v)] ∧
        out1.notifs = ["Volume ID: " ++ vid ++ ", Status: " ++ v.state] ∧
        out2.notifs = ["Volume ID: " ++ vid ++ ", Status: " ++ v.state] := by
  intro env loads vid az v hd hput hpub
  refine ⟨_, _, rfl, rfl, ?_, ?_, ?_, ?_⟩
  · show (VerifyAndNotify.processList env 0 [] []
      [{ volumeId := vid, availabilityZone := az }]).1 = _
    simp [VerifyAndNotify.processList, VerifyAndNotify.processVol, hd, hput, hpub, appendAudit]
  · show (VerifyAndNotify.processList env 0
      (VerifyAndNotify.processList env 0 [] []
        [{ volumeId := vid, availabilityZone := az }]).1 []
      [{ volumeId := vid, availabilityZone := az }]).1 = _
    simp [VerifyAndNotify.processList, VerifyAndNotify.processVol, hd, hput, hpub, appendAudit]
  · show (VerifyAndNotify.processList env 0 [] []
      [{ volumeId := vid, availabilityZone := az }]).2.1 = _
    simp [VerifyAndNotify.processList, VerifyAndNotify.processVol, hd, hput, hpub, appendAudit]
  · show (VerifyAndNotify.processList env 0
      (VerifyAndNotify.processList env 0 [] []
        [{ volumeId := vid, availabilityZone := az }]).1 []
      [{ volumeId := vid, availabilityZone := az }]).2.1 = _
    simp [VerifyAndNotify.processList, VerifyAndNotify.processVol, hd, hput, hpub, appendAudit]

/-- Witness for C6: the all-accepting environment `envOkV` satisfies every
hypothesis for volume `vol-A`, and two runs stack two records. -/
theorem C6_witness :
    ∃ out1 out2,
      VerifyAndNotify.lambda_handler envOkV (fun _ => none)
          (VerifyAndNotify.Event.list [{ volumeId := "vol-A", availabilityZone := "az1" }]) [] =
        Except.ok out1 ∧
      VerifyAndNotify.lambda_handler envOkV (fun _ => none)
          (VerifyAndNotify.Event.list [{ volumeId := "vol-A", availabilityZone := "az1" }])
          out1.store =
        Except.ok out2 ∧
      out1.store = [(0, VerifyAndNotify.mkLog envOkV 0 "vol-A" volA)] ∧
      out2.store = [(0, VerifyAndNotify.mkLog envOkV 0 "vol-A" volA),
                    (1, VerifyAndNotify.mkLog envOkV 0 "vol-A" volA)] ∧
      out1.notifs = ["Volume ID: " ++ "vol-A" ++ ", Status: " ++ volA.state] ∧
      out2.notifs = ["Volume ID: " ++ "vol-A" ++ ", Status: " ++ volA.state] :=
  C6_rerun_idempotence envOkV (fun _ => none) "vol-A" "az1" volA rfl
    (fun _ => rfl) (fun _ => rfl)

/-- An unattached volume, and an environment whose inventory returns it. -/
def volU : Volume :=
  { volA with volumeId := "vol-U", attachments := [] }

/-- A Verifier environment that observes the unattached volume `volU` and in
which every external call succeeds. -/
def envU : VerifyEnv :=
  { describeVolume := fun _ => some volU
    putOk := fun _ => true
    publishOk := fun _ => true
    time := fun _ => "t0" }

/-- C8 counterexample: observing a volume with no attachments records the
sentinel `Unknown` (capital U), which is not the claimed string `unknown` —
the record appended for `vol-U` shows it. -/
theorem C8_counterexample :
    (VerifyAndNotify.processVol envU 0 [] []
        { volumeId := "vol-U", availabilityZone := "az1" }).1 =
      [(0, VerifyAndNotify.mkLog envU 0 "vol-U" volU)] ∧
    (VerifyAndNotify.mkLog envU 0 "vol-U" volU).instanceId = "Unknown" ∧
    (VerifyAndNotify.mkLog envU 0 "vol-U" volU).instanceId ≠ "unknown" := by
  refine ⟨rfl, rfl, ?_⟩
  decide

/-- C8 (amended): when the inventory query succeeds and the audit write is
accepted, the record appended for the item carries as `instanceId` the owning
instance of the FIRST attachment in the provider's returned order, or the
sentinel `Unknown` (capital U) when the volume has no attachments. -/
theorem C8_first_attachment_owner :
    ∀ env idx store notifs (vol : VolumeRecord) v,
      env.describeVolume vol.volumeId = some v →
      env.putOk (VerifyAndNotify.mkLog env idx vol.volumeId v) = true →
      ∃ r, (VerifyAndNotify.processVol env idx store notifs vol).1 =
          store ++ [(store.length, r)] ∧
        (v.attachments = [] → r.instanceId = "Unknown") ∧
        (∀ a rest, v.attachments = a :: rest → r.instanceId = a.instanceId) := by
  intro env idx store notifs vol v hd hp
  refine ⟨VerifyAndNotify.mkLog env idx vol.volumeId v, ?_, ?_, ?_⟩
  · by_cases hq :
      env.publishOk ("Volume ID: " ++ vol.volumeId ++ ", Status: " ++ v.state) = true
    · simp [VerifyAndNotify.processVol, hd, hp, hq, appendAudit]
    · simp [VerifyAndNotify.processVol, hd, hp, hq, appendAudit]
  · intro h0
    simp [VerifyAndNotify.mkLog, h0]
  · intro a rest h0
    simp [VerifyAndNotify.mkLog, h0]

/-- Witness for C8: the amended statement applied to the unattached `volU`. -/
theorem C8_witness :
    ∃ r, (VerifyAndNotify.processVol envU 0 [] []
        { volumeId := "vol-U", availabilityZone := "az1" }).1 =
        [] ++ [(([] : List (Nat × AuditRecord)).length, r)] ∧
      (volU.attachments = [] → r.instanceId = "Unknown") ∧
      (∀ a rest, volU.attachments = a :: rest → r.instanceId = a.instanceId) :=
  C8_first_attachment_owner envU 0 [] []
    { volumeId := "vol-U", availabilityZone := "az1" } volU rfl rfl

/-- C9: the Verifier/Notifier coerces its event before processing: a dict is
wrapped into a one-element list and handled identically to it, and a string
is first parsed by `json.loads`, after which a parsed dict is wrapped and a
parsed list is processed as is. -/
theorem C9_event_coercion :
    ∀ env loads store0,
      (∀ r, VerifyAndNotify.lambda_handler env loads (VerifyAndNotify.Event.dict r) store0 =
        VerifyAndNotify.lambda_handler env loads (VerifyAndNotify.Event.list [r]) store0) ∧
      (∀ s r, loads s = some (VerifyAndNotify.Event.dict r) →
        VerifyAndNotify.lambda_handler env loads (VerifyAndNotify.Event.str s) store0 =
          VerifyAndNotify.lambda_handler env loads (VerifyAndNotify.Event.list [r]) store0) ∧
      (∀ s items, loads s = some (VerifyAndNotify.Event.list items) →
        VerifyAndNotify.lambda_handler env loads (VerifyAndNotify.Event.str s) store0 =
          VerifyAndNotify.lambda_handler env loads (VerifyAndNotify.Event.list items) store0) := by
  intro env loads store0
  refine ⟨fun r => rfl, fun s r h => ?_, fun s items h => ?_⟩
  · simp [VerifyAndNotify.lambda_handler, h]
  · simp [VerifyAndNotify.lambda_handler, h]

/-- Witness for C9: a `json.loads` that yields a single dict makes the string
event and the one-element list event produce the same output. -/
theorem C9_witness :
    VerifyAndNotify.lambda_handler envOkV
        (fun _ => some (VerifyAndNotify.Event.dict
          { volumeId := "vol-A", availabilityZone := "az1" }))
        (VerifyAndNotify.Event.str "payload") [] =
      VerifyAndNotify.lambda_handler envOkV
        (fun _ => some (VerifyAndNotify.Event.dict
          { volumeId := "vol-A", availabilityZone := "az1" }))
        (VerifyAndNotify.Event.list [{ volumeId := "vol-A", availabilityZone := "az1" }]) [] :=
  (C9_event_coercion envOkV
    (fun _ => some (VerifyAndNotify.Event.dict
      { volumeId := "vol-A", availabilityZone := "az1" })) []).2.1 "payload"
    { volumeId := "vol-A", availabilityZone := "az1" } rfl

/-- C10: on any batch, the Verifier/Notifier only appends to the audit store,
and every record it persists carries the fixed region `ap-south-1`, whatever
the input records and the observed volumes are. -/
theorem C10_region_constant :
    ∀ env loads (items : List VolumeRecord) store0,
      ∃ out, VerifyAndNotify.lambda_handler env loads
          (VerifyAndNotify.Event.list items) store0 = Except.ok out ∧
        store0 <+: out.store ∧
        ∀ p ∈ out.store.drop store0.length, (p : Nat × AuditRecord).2.region = "ap-south-1" := by
  intro env loads items store0
  obtain ⟨d, hd, hr⟩ := processList_store env items 0 store0 []
  refine ⟨_, rfl, ?_, ?_⟩
  · show store0 <+: (VerifyAndNotify.processList env 0 store0 [] items).1
    rw [hd]
    exact List.prefix_append _ _
  · show ∀ p ∈ ((VerifyAndNotify.processList env 0 store0 [] items).1).drop store0.length, _
    rw [hd, List.drop_left]
    exact hr

/-- Witness for C10: the record persisted for `vol-A` in the all-accepting
environment indeed carries region `ap-south-1`. -/
theorem C10_witness :
    (VerifyAndNotify.mkLog envOkV 0 "vol-A" volA).region = "ap-south-1" := by
  obtain ⟨out, h1, h2, h3⟩ := C10_region_constant envOkV (fun _ => none)
    [{ volumeId := "vol-A", availabilityZone := "az1" }] []
  have h5 : Except.ok out =
      (Except.ok { store := [(0, VerifyAndNotify.mkLog envOkV 0 "vol-A" volA)]
                   notifs := ["Volume ID: " ++ "vol-A" ++ ", Status: " ++ volA.state]
                   outcomes := [ItemOutcome.notified]
                   result := "logged and notified" } :
        Except String VerifyAndNotify.VerifyOutput) := h1.symm.trans rfl
  injection h5 with h6
  subst h6
  exact h3 (0, VerifyAndNotify.mkLog envOkV 0 "vol-A" volA) (by simp)

end EBS
